import Mathlib

/-!
Shallow embedding of `code/core/src/core-server/build-static.ts`
(`buildStaticStandalone`), the static-build orchestrator.

The orchestrator is modelled as a deterministic function from an
environment (the behaviour of the external collaborators: the
filesystem state of the output directory, the loaded configuration,
and the success/failure of each builder and side-effect task) and the
caller's options record to a `RunResult` holding:
  * `trace`        — the observable steps, in program order;
  * `options`      — the options record after the in-place mutations;
  * `fsAfterGuard` — the output-directory state as the Output Guard
                     leaves it (later writers are external);
  * `effects`      — the final contents of the `effects` array;
  * `drains`       — the batches of `effects` that are awaited
                     (each entry is the snapshot passed to one
                     `Promise.all` join);
  * `exitCode`     — the value written to `process.exitCode`, if any;
  * `outcome`      — normal return or the first propagated rejection.
-/

namespace BuildStatic

/-- Kinds of deferred side-effect tasks pushed onto the `effects` array. -/
inductive EffectKind where
  | staticCopy
  | assetCopy
  | indexExport
  | metadataExport
  | telemetryTask
deriving Repr, DecidableEq, Fintype

/-- Observable steps of one `buildStaticStandalone` run, in program order. -/
inductive Event where
  | setConfigType
  | resolveOutputDir
  | resolveConfigDir
  | logCleaning
  | readdirOutput
  | rmOutput
  | mkdirOutput
  | loadMainConfig
  | warnNoFramework
  | loadPresets1
  | applyCoreBuild
  | getBuilders
  | loadPresets2
  | applySections
  | managerBuild
  | queueEffect (k : EffectKind)
  | indexerConstructed
  | logPreviewConfig
  | previewBuild
  | logPreviewError
  | joinBatch
  | telemetryEvent
  | reportOutput
deriving Repr, DecidableEq

/-- State of the (resolved) output directory on the filesystem. -/
structure FS where
  present : Bool
  entries : List String
deriving Repr, DecidableEq

/-- The `core` configuration section, as consumed by the orchestrator. -/
structure CoreConfig where
  disableProjectJson : Bool
  disableTelemetry : Bool
deriving Repr, DecidableEq

/-- The caller's options record (`BuildStaticStandaloneOptions`),
restricted to the fields the orchestrator reads or writes. -/
structure Options where
  outputDir : String
  configDir : String
  configType : Option String
  ignorePreview : Bool
  debugWebpack : Bool
  webpackStatsJson : Option String
  statsJson : Option String
deriving Repr, DecidableEq

/-- Behaviour of the external collaborators during one run:
`res` is `path.resolve`, `fs0` the initial state of the (resolved)
output directory, `framework`/`renderer`/`staticDirs`/`core` the
relevant configuration values, and the `...Ok` flags tell whether each
builder build / side-effect task succeeds or rejects. -/
structure Env where
  res : String → String
  fs0 : FS
  framework : Option String
  renderer : Option String
  staticDirs : Option (List String)
  core : CoreConfig
  managerBuildOk : Bool
  previewBuildOk : Bool
  staticCopyOk : Bool
  assetCopyOk : Bool
  indexExportOk : Bool
  metadataExportOk : Bool

/-- The errors `buildStaticStandalone` can propagate. -/
inductive BuildError where
  | emptyOutputDir
  | rootOutputDir
  | outputDirMissing
  | managerBuildFailed
  | batchFailed
deriving Repr, DecidableEq

/-- Normal return or first propagated rejection. -/
inductive Outcome where
  | ok
  | error (e : BuildError)
deriving Repr, DecidableEq

/-- Result of one modelled `buildStaticStandalone` run. -/
structure RunResult where
  trace : List Event
  options : Options
  fsAfterGuard : FS
  effects : List EffectKind
  drains : List (List EffectKind)
  exitCode : Option Nat
  outcome : Outcome
deriving Repr

/-- Whether a given queued side-effect task succeeds in environment `env`
(the queued telemetry task is never awaited, so its own success is
irrelevant to every join). -/
def effectOk (env : Env) : EffectKind → Bool
  | .staticCopy => env.staticCopyOk
  | .assetCopy => env.assetCopyOk
  | .indexExport => env.indexExportOk
  | .metadataExport => env.metadataExportOk
  | .telemetryTask => true

/-- An aborting result: trace so far, no effects queued, nothing drained. -/
def abortWith (t : List Event) (o : Options) (fs : FS) (e : BuildError) :
    RunResult :=
  { trace := t, options := o, fsAfterGuard := fs, effects := [], drains := [],
    exitCode := none, outcome := .error e }

/-- The options record after the in-place mutations of lines 34 and
40-41: `configType = 'PRODUCTION'`, `outputDir`/`configDir` resolved. -/
def resolvedOpts (env : Env) (o : Options) : Options :=
  { o with configType := some "PRODUCTION",
           outputDir := env.res o.outputDir,
           configDir := env.res o.configDir }

/-- Output-directory state as the guard leaves it (lines 48-52): an
existing non-empty directory is removed and recreated empty
(`rm` recursive + `mkdir`), an existing empty one is untouched. -/
def guardFS (env : Env) : FS :=
  if env.fs0.entries = [] then env.fs0 else { present := true, entries := [] }

/-- Steps from the start through the parallel section apply
(lines 33-108): configType mutation, empty-string check, resolution,
cleaning notice, root check, `readdir` listing, conditional
`rm`+`mkdir` (lines 49-52), `loadMainConfig` (line 54), the
missing-framework warning (lines 58-63: only when no framework is
declared and `ignorePreview` is unset), presets pass 1 (line 66),
`core`/`build` apply plus `getBuilders` (lines 78-80), presets pass 2
(lines 85-99), parallel apply of the six sections (lines 101-108),
stopping just before the manager build. -/
def guardConfigT (env : Env) (o : Options) : List Event :=
  [.setConfigType, .resolveOutputDir, .resolveConfigDir, .logCleaning,
   .readdirOutput] ++
  (if env.fs0.entries = [] then [] else [.rmOutput, .mkdirOutput]) ++
  [.loadMainConfig] ++
  (if env.framework.isSome then []
   else if o.ignorePreview then [] else [.warnNoFramework]) ++
  [.loadPresets1, .applyCoreBuild, .getBuilders, .loadPresets2,
   .applySections]

/-- `guardConfigT` followed by the manager build attempt itself
(lines 121-123). -/
def preTrace (env : Env) (o : Options) : List Event :=
  guardConfigT env o ++ [.managerBuild]

/-- The contents of the `effects` array at the join point (lines
125-168): static copy pushed on truthiness of `staticDirs` (line 125),
asset copy always (line 137), index export unless `ignorePreview`
(lines 141-162), metadata export unless `core.disableProjectJson`
(lines 164-168). -/
def queuedEffects (env : Env) (o : Options) : List EffectKind :=
  (if env.staticDirs.isSome then [.staticCopy] else []) ++
  [.assetCopy] ++
  (if o.ignorePreview then [] else [.indexExport]) ++
  (if env.core.disableProjectJson then [] else [.metadataExport])

/-- Steps from after the manager build to the join (lines 125-206):
the conditional queueing of the four non-telemetry effects, the story
index generator construction (lines 141-162, unless `ignorePreview`),
the debug config log (lines 170-172), the preview build attempt
(lines 180-198, unless `ignorePreview`) and — when it rejects — the
catch handler's error log (lines 199-203). -/
def queueT (env : Env) (o : Options) : List Event :=
  (if env.staticDirs.isSome then [.queueEffect .staticCopy] else []) ++
  [.queueEffect .assetCopy] ++
  (if o.ignorePreview then []
   else [.indexerConstructed, .queueEffect .indexExport]) ++
  (if env.core.disableProjectJson then [] else [.queueEffect .metadataExport]) ++
  (if o.debugWebpack then [.logPreviewConfig] else []) ++
  (if o.ignorePreview then [] else [.previewBuild]) ++
  (if o.ignorePreview = false ∧ env.previewBuildOk = false then
     [.logPreviewError] else [])

/-- Whether the joined `Promise.all` of the preview build and the
queued effects (lines 181-206) fulfills: the preview build must
succeed (or be skipped), and every queued effect must succeed. -/
def batchOk (env : Env) (o : Options) : Bool :=
  (o.ignorePreview || env.previewBuildOk) &&
    (queuedEffects env o).all (effectOk env)

/-- Steps after a successful join (lines 209-224): queueing of the
telemetry task onto `effects` — which starts it, submitting one
telemetry event — unless `core.disableTelemetry`. -/
def telemetryTail (env : Env) : List Event :=
  if env.core.disableTelemetry then []
  else [.queueEffect .telemetryTask, .telemetryEvent]

/-- Final contents of the `effects` array after lines 209-224. -/
def finalEffects (env : Env) (o : Options) : List EffectKind :=
  if env.core.disableTelemetry then queuedEffects env o
  else queuedEffects env o ++ [.telemetryTask]

/-- Model of `buildStaticStandalone` (build-static.ts lines 33-227).
Control flow, in source order:
  * line 34: `options.configType = 'PRODUCTION'` (in-place mutation);
  * lines 36-38: throw on an empty `outputDir`, before resolution;
  * lines 40-41: resolve `outputDir`/`configDir` in place; line 43:
    cleaning notice; lines 44-46: throw on a resolved root path;
  * line 48: `readdir(outputDir)` — rejects when the directory is
    absent, aborting the run; lines 49-52: non-empty listing ⇒ `rm`
    recursive + `mkdir`;
  * lines 54-123: configuration loading (two passes) and the manager
    (shell) build behind `buildOrThrow` — a rejection aborts the run
    with nothing queued (see `preTrace`);
  * lines 125-206: conditional queueing of the four effects, then one
    `Promise.all` joining the preview build (unless `ignorePreview`)
    with the snapshot of `effects`; a preview rejection logs, sets
    `process.exitCode = 1` and re-throws, so the join rejects and the
    error propagates; an effect rejection also rejects the join, but
    leaves `process.exitCode` unset;
  * lines 209-224: push the telemetry task onto `effects` (unless
    `core.disableTelemetry`); this second batch is never awaited;
  * line 226: final output-directory notice, then normal return. -/
def buildStaticStandalone (env : Env) (o0 : Options) : RunResult :=
  let o1 := { o0 with configType := some "PRODUCTION" }
  if o1.outputDir = "" then
    abortWith [.setConfigType] o1 env.fs0 .emptyOutputDir
  else
    let o := { o1 with outputDir := env.res o1.outputDir,
                       configDir := env.res o1.configDir }
    if o.outputDir = "/" then
      abortWith [.setConfigType, .resolveOutputDir, .resolveConfigDir,
                 .logCleaning] o env.fs0 .rootOutputDir
    else if env.fs0.present = false then
      abortWith [.setConfigType, .resolveOutputDir, .resolveConfigDir,
                 .logCleaning, .readdirOutput] o env.fs0 .outputDirMissing
    else if env.managerBuildOk = false then
      abortWith (preTrace env o0) o (guardFS env) .managerBuildFailed
    else if batchOk env o0 = false then
      { trace := preTrace env o0 ++ queueT env o0, options := o,
        fsAfterGuard := guardFS env, effects := queuedEffects env o0,
        drains := [queuedEffects env o0],
        exitCode :=
          if o0.ignorePreview = false ∧ env.previewBuildOk = false then
            some 1 else none,
        outcome := .error .batchFailed }
    else
      { trace := preTrace env o0 ++ queueT env o0 ++ [.joinBatch] ++
                   telemetryTail env ++ [.reportOutput],
        options := o, fsAfterGuard := guardFS env,
        effects := finalEffects env o0, drains := [queuedEffects env o0],
        exitCode := none, outcome := .ok }

/-- Index of the first occurrence of an event in a trace. -/
def firstIdx (t : List Event) (e : Event) : Option Nat :=
  t.findIdx? (fun x => decide (x = e))

/-- `a` occurs in `t`, `b` occurs in `t`, and the first occurrence of
`a` is strictly earlier than the first occurrence of `b`. -/
def idxBefore (t : List Event) (a b : Event) : Bool :=
  match firstIdx t a, firstIdx t b with
  | some i, some j => Nat.blt i j
  | _, _ => false

/-- A path-resolution function for concrete runs: maps every input to a
distinct absolute path under `/a`. -/
def res0 : String → String := fun s => "/a/" ++ s

/-- Baseline options for concrete runs. -/
def opts0 : Options :=
  { outputDir := "d", configDir := "c", configType := none,
    ignorePreview := false, debugWebpack := false,
    webpackStatsJson := none, statsJson := none }

/-- Baseline environment for concrete runs: non-empty existing output
directory, framework declared, everything succeeds, telemetry enabled. -/
def env0 : Env :=
  { res := res0, fs0 := { present := true, entries := ["x"] },
    framework := some "f", renderer := some "r",
    staticDirs := none,
    core := { disableProjectJson := false, disableTelemetry := false },
    managerBuildOk := true, previewBuildOk := true,
    staticCopyOk := true, assetCopyOk := true,
    indexExportOk := true, metadataExportOk := true }

/-- Environment whose output directory does not exist. -/
def envMissing : Env :=
  { env0 with fs0 := { present := false, entries := [] } }

/-- Environment whose resolved `staticDirs` section is an empty array. -/
def envEmptyStatic : Env :=
  { env0 with staticDirs := some [] }

/-- Environment whose path resolution lands on the filesystem root. -/
def envRoot : Env :=
  { env0 with res := fun _ => "/" }

/-- Environment whose manager (shell) build rejects. -/
def envManagerFail : Env :=
  { env0 with managerBuildOk := false }

/-- Environment whose preview build rejects. -/
def envPreviewFail : Env :=
  { env0 with previewBuildOk := false }

/-- Environment with telemetry disabled. -/
def envNoTelemetry : Env :=
  { env0 with
    core := { disableProjectJson := false, disableTelemetry := true } }

/-- Options with an empty output-directory string. -/
def optsEmptyOut : Options :=
  { opts0 with outputDir := "" }


/-! ### Path lemmas: one characterization per control-flow path -/

/-- Empty `outputDir`: immediate abort after the configType mutation. -/
theorem run_empty (env : Env) (o : Options) (h : o.outputDir = "") :
    buildStaticStandalone env o =
      abortWith [.setConfigType] { o with configType := some "PRODUCTION" }
        env.fs0 .emptyOutputDir := by
  simp [buildStaticStandalone, h]

/-- Resolved root `outputDir`: abort after resolution and the notice. -/
theorem run_root (env : Env) (o : Options) (h1 : o.outputDir ≠ "")
    (h2 : env.res o.outputDir = "/") :
    buildStaticStandalone env o =
      abortWith [.setConfigType, .resolveOutputDir, .resolveConfigDir,
                 .logCleaning] (resolvedOpts env o) env.fs0 .rootOutputDir := by
  simp [buildStaticStandalone, resolvedOpts, h1, h2]

/-- Missing output directory: `readdir` rejects and the run aborts. -/
theorem run_missing (env : Env) (o : Options) (h1 : o.outputDir ≠ "")
    (h2 : env.res o.outputDir ≠ "/") (h3 : env.fs0.present = false) :
    buildStaticStandalone env o =
      abortWith [.setConfigType, .resolveOutputDir, .resolveConfigDir,
                 .logCleaning, .readdirOutput] (resolvedOpts env o) env.fs0
        .outputDirMissing := by
  simp [buildStaticStandalone, resolvedOpts, h1, h2, h3]

/-- Manager (shell) build rejection: abort with nothing queued. -/
theorem run_managerFail (env : Env) (o : Options) (h1 : o.outputDir ≠ "")
    (h2 : env.res o.outputDir ≠ "/") (h3 : env.fs0.present = true)
    (h4 : env.managerBuildOk = false) :
    buildStaticStandalone env o =
      abortWith (preTrace env o) (resolvedOpts env o) (guardFS env)
        .managerBuildFailed := by
  simp [buildStaticStandalone, resolvedOpts, h1, h2, h3, h4]

/-- Joined batch rejection: effects are queued and drained once, the
exit code is set only on a preview-build failure, and the rejection
propagates. -/
theorem run_batchFail (env : Env) (o : Options) (h1 : o.outputDir ≠ "")
    (h2 : env.res o.outputDir ≠ "/") (h3 : env.fs0.present = true)
    (h4 : env.managerBuildOk = true) (h5 : batchOk env o = false) :
    buildStaticStandalone env o =
      { trace := preTrace env o ++ queueT env o,
        options := resolvedOpts env o, fsAfterGuard := guardFS env,
        effects := queuedEffects env o, drains := [queuedEffects env o],
        exitCode :=
          if o.ignorePreview = false ∧ env.previewBuildOk = false then
            some 1 else none,
        outcome := .error .batchFailed } := by
  simp [buildStaticStandalone, resolvedOpts, h1, h2, h3, h4, h5]

/-- Successful run: the batch is drained once, the telemetry task is
queued afterwards (unless disabled), and the run returns normally. -/
theorem run_ok (env : Env) (o : Options) (h1 : o.outputDir ≠ "")
    (h2 : env.res o.outputDir ≠ "/") (h3 : env.fs0.present = true)
    (h4 : env.managerBuildOk = true) (h5 : batchOk env o = true) :
    buildStaticStandalone env o =
      { trace := preTrace env o ++ queueT env o ++ [.joinBatch] ++
                   telemetryTail env ++ [.reportOutput],
        options := resolvedOpts env o, fsAfterGuard := guardFS env,
        effects := finalEffects env o, drains := [queuedEffects env o],
        exitCode := none, outcome := .ok } := by
  simp [buildStaticStandalone, resolvedOpts, h1, h2, h3, h4, h5]


/-! ### Segment membership helpers -/

/-- `loadPresets2` always occurs in the guard/configuration prefix. -/
theorem loadPresets2_mem_guardConfigT (env : Env) (o : Options) :
    Event.loadPresets2 ∈ guardConfigT env o := by
  simp only [guardConfigT]
  split_ifs <;> decide

/-- No manager-build step inside the guard/configuration prefix. -/
theorem managerBuild_not_mem_guardConfigT (env : Env) (o : Options) :
    Event.managerBuild ∉ guardConfigT env o := by
  simp only [guardConfigT]
  split_ifs <;> decide

/-- No preview-build step inside the guard/configuration prefix. -/
theorem previewBuild_not_mem_guardConfigT (env : Env) (o : Options) :
    Event.previewBuild ∉ guardConfigT env o := by
  simp only [guardConfigT]
  split_ifs <;> decide

/-- No queueing step inside the guard/configuration prefix. -/
theorem queueEffect_not_mem_guardConfigT (env : Env) (o : Options)
    (k : EffectKind) : Event.queueEffect k ∉ guardConfigT env o := by
  simp only [guardConfigT]
  split_ifs <;> cases k <;> decide

/-- No preview-error log inside the guard/configuration prefix. -/
theorem logPreviewError_not_mem_guardConfigT (env : Env) (o : Options) :
    Event.logPreviewError ∉ guardConfigT env o := by
  simp only [guardConfigT]
  split_ifs <;> decide

/-- No join step inside the guard/configuration prefix. -/
theorem joinBatch_not_mem_guardConfigT (env : Env) (o : Options) :
    Event.joinBatch ∉ guardConfigT env o := by
  simp only [guardConfigT]
  split_ifs <;> decide

/-- No telemetry submission inside the guard/configuration prefix. -/
theorem telemetryEvent_not_mem_guardConfigT (env : Env) (o : Options) :
    Event.telemetryEvent ∉ guardConfigT env o := by
  simp only [guardConfigT]
  split_ifs <;> decide

/-- The preview build step occurs in the queue/batch segment exactly
when preview building is not disabled. -/
theorem previewBuild_mem_queueT (env : Env) (o : Options) :
    Event.previewBuild ∈ queueT env o ↔ o.ignorePreview = false := by
  simp only [queueT]
  split_ifs <;> simp_all

/-- The preview-failure log occurs exactly when the preview build runs
and rejects. -/
theorem logPreviewError_mem_queueT (env : Env) (o : Options) :
    Event.logPreviewError ∈ queueT env o ↔
      o.ignorePreview = false ∧ env.previewBuildOk = false := by
  simp only [queueT]
  split_ifs with hs hig hpj hdw hpf <;> simp_all

/-- No join step inside the queue/batch segment. -/
theorem joinBatch_not_mem_queueT (env : Env) (o : Options) :
    Event.joinBatch ∉ queueT env o := by
  simp only [queueT]
  split_ifs <;> decide

/-- No telemetry submission inside the queue/batch segment. -/
theorem telemetryEvent_not_mem_queueT (env : Env) (o : Options) :
    Event.telemetryEvent ∉ queueT env o := by
  simp only [queueT]
  split_ifs <;> decide

/-- No preview-build step in the post-join telemetry segment. -/
theorem previewBuild_not_mem_telemetryTail (env : Env) :
    Event.previewBuild ∉ telemetryTail env := by
  simp only [telemetryTail]
  split_ifs <;> decide

/-- No preview-error log in the post-join telemetry segment. -/
theorem logPreviewError_not_mem_telemetryTail (env : Env) :
    Event.logPreviewError ∉ telemetryTail env := by
  simp only [telemetryTail]
  split_ifs <;> decide

/-- The telemetry submission occurs in the post-join segment exactly
when telemetry is not disabled. -/
theorem telemetryEvent_mem_telemetryTail (env : Env) :
    Event.telemetryEvent ∈ telemetryTail env ↔
      env.core.disableTelemetry = false := by
  simp only [telemetryTail]
  split_ifs <;> simp_all

/-- The static-copy task is queued exactly when `staticDirs` is a
present (`some`) value — its emptiness is irrelevant. -/
theorem staticCopy_mem_queuedEffects (env : Env) (o : Options) :
    EffectKind.staticCopy ∈ queuedEffects env o ↔
      env.staticDirs.isSome = true := by
  simp only [queuedEffects]
  split_ifs <;> simp_all

/-- The telemetry task is never part of the drained batch. -/
theorem telemetryTask_not_mem_queuedEffects (env : Env) (o : Options) :
    EffectKind.telemetryTask ∉ queuedEffects env o := by
  simp only [queuedEffects]
  split_ifs <;> decide

/-- The asset-copy task is always queued. -/
theorem assetCopy_mem_queuedEffects (env : Env) (o : Options) :
    EffectKind.assetCopy ∈ queuedEffects env o := by
  simp only [queuedEffects]
  split_ifs <;> decide

/-! ### Claims -/

/-- C5: for an empty output-directory string the run throws before any
resolution, listing or removal; for a root-resolved output directory it
throws after resolution but before any listing or removal; and in all
other cases the guard's steps occur in the order: empty-string check,
path resolution, root-path check, listing (`readdir`), then conditional
removal and recreation. -/
theorem c5_guard_check_order (env : Env) (o : Options) :
    (o.outputDir = "" →
      (buildStaticStandalone env o).outcome = .error .emptyOutputDir ∧
      (buildStaticStandalone env o).trace = [.setConfigType]) ∧
    (o.outputDir ≠ "" → env.res o.outputDir = "/" →
      (buildStaticStandalone env o).outcome = .error .rootOutputDir ∧
      (buildStaticStandalone env o).trace =
        [.setConfigType, .resolveOutputDir, .resolveConfigDir, .logCleaning] ∧
      Event.readdirOutput ∉ (buildStaticStandalone env o).trace ∧
      Event.rmOutput ∉ (buildStaticStandalone env o).trace) ∧
    (o.outputDir ≠ "" → env.res o.outputDir ≠ "/" →
      (buildStaticStandalone env o).trace.take 5 =
        [.setConfigType, .resolveOutputDir, .resolveConfigDir, .logCleaning,
         .readdirOutput] ∧
      (Event.rmOutput ∈ (buildStaticStandalone env o).trace →
        (buildStaticStandalone env o).trace.take 7 =
          [.setConfigType, .resolveOutputDir, .resolveConfigDir, .logCleaning,
           .readdirOutput, .rmOutput, .mkdirOutput])) := by
  refine ⟨fun h1 => ?_, fun h1 h2 => ?_, fun h1 h2 => ?_⟩
  · rw [run_empty env o h1]
    exact ⟨rfl, rfl⟩
  · rw [run_root env o h1 h2]
    exact ⟨rfl, rfl, by simp only [abortWith]; decide,
      by simp only [abortWith]; decide⟩
  · cases h3 : env.fs0.present with
    | false =>
        rw [run_missing env o h1 h2 h3]
        exact ⟨rfl, fun hm => absurd hm (by simp only [abortWith]; decide)⟩
    | true =>
        rcases em (env.fs0.entries = []) with he | he
        · cases h4 : env.managerBuildOk with
          | false =>
              rw [run_managerFail env o h1 h2 h3 h4]
              refine ⟨by simp [abortWith, preTrace, guardConfigT, he], fun hm => ?_⟩
              exfalso
              revert hm
              simp only [abortWith, preTrace, guardConfigT, he]
              split_ifs <;> decide
          | true =>
              cases h5 : batchOk env o with
              | false =>
                  rw [run_batchFail env o h1 h2 h3 h4 h5]
                  refine ⟨by simp [preTrace, guardConfigT, he], fun hm => ?_⟩
                  exfalso
                  revert hm
                  simp only [preTrace, guardConfigT, queueT, he]
                  split_ifs <;> decide
              | true =>
                  rw [run_ok env o h1 h2 h3 h4 h5]
                  refine ⟨by simp [preTrace, guardConfigT, he], fun hm => ?_⟩
                  exfalso
                  revert hm
                  simp only [preTrace, guardConfigT, queueT, telemetryTail, he]
                  split_ifs <;> decide
        · cases h4 : env.managerBuildOk with
          | false =>
              rw [run_managerFail env o h1 h2 h3 h4]
              exact ⟨by simp [abortWith, preTrace, guardConfigT, he], fun _ => by
                simp [abortWith, preTrace, guardConfigT, he]⟩
          | true =>
              cases h5 : batchOk env o with
              | false =>
                  rw [run_batchFail env o h1 h2 h3 h4 h5]
                  exact ⟨by simp [preTrace, guardConfigT, he], fun _ => by
                    simp [preTrace, guardConfigT, he]⟩
              | true =>
                  rw [run_ok env o h1 h2 h3 h4 h5]
                  exact ⟨by simp [preTrace, guardConfigT, he], fun _ => by
                    simp [preTrace, guardConfigT, he]⟩

/-- C5 witness: the two rejections at concrete inputs. -/
theorem c5_guard_check_order_witness :
    (buildStaticStandalone env0 optsEmptyOut).outcome =
      .error .emptyOutputDir ∧
    (buildStaticStandalone envRoot opts0).outcome = .error .rootOutputDir :=
  ⟨((c5_guard_check_order env0 optsEmptyOut).1 rfl).1,
   ((c5_guard_check_order envRoot opts0).2.1 (by decide) rfl).1⟩

/-- C6: when the output directory exists and is non-empty, the guard
removes and recreates it, so it is present and empty — and the removal
and recreation happen in the guard prefix of the trace, before the
manager build, any effect queueing and the preview build; when it
exists and is already empty, the guard leaves it untouched (no removal,
no recreation). -/
theorem c6_guard_cleans_nonempty (env : Env) (o : Options)
    (h1 : o.outputDir ≠ "") (h2 : env.res o.outputDir ≠ "/")
    (h3 : env.fs0.present = true) :
    (env.fs0.entries ≠ [] →
      (buildStaticStandalone env o).fsAfterGuard =
        { present := true, entries := [] } ∧
      (buildStaticStandalone env o).trace.take 7 =
        [.setConfigType, .resolveOutputDir, .resolveConfigDir, .logCleaning,
         .readdirOutput, .rmOutput, .mkdirOutput] ∧
      Event.managerBuild ∉ (buildStaticStandalone env o).trace.take 7 ∧
      Event.previewBuild ∉ (buildStaticStandalone env o).trace.take 7 ∧
      (∀ k, Event.queueEffect k ∉ (buildStaticStandalone env o).trace.take 7)) ∧
    (env.fs0.entries = [] →
      (buildStaticStandalone env o).fsAfterGuard = env.fs0 ∧
      Event.rmOutput ∉ (buildStaticStandalone env o).trace ∧
      Event.mkdirOutput ∉ (buildStaticStandalone env o).trace) := by
  have main :
      ∀ t : List Event,
        Event.rmOutput ∉ t →
        Event.mkdirOutput ∉ t →
        (buildStaticStandalone env o).trace = preTrace env o ++ t →
        (buildStaticStandalone env o).fsAfterGuard = guardFS env →
        (env.fs0.entries ≠ [] →
          (buildStaticStandalone env o).fsAfterGuard =
            { present := true, entries := [] } ∧
          (buildStaticStandalone env o).trace.take 7 =
            [.setConfigType, .resolveOutputDir, .resolveConfigDir,
             .logCleaning, .readdirOutput, .rmOutput, .mkdirOutput] ∧
          Event.managerBuild ∉ (buildStaticStandalone env o).trace.take 7 ∧
          Event.previewBuild ∉ (buildStaticStandalone env o).trace.take 7 ∧
          (∀ k, Event.queueEffect k ∉
            (buildStaticStandalone env o).trace.take 7)) ∧
        (env.fs0.entries = [] →
          (buildStaticStandalone env o).fsAfterGuard = env.fs0 ∧
          Event.rmOutput ∉ (buildStaticStandalone env o).trace ∧
          Event.mkdirOutput ∉ (buildStaticStandalone env o).trace) := by
    intro t hrm hmk ht hfs
    constructor
    · intro he
      rcases List.exists_cons_of_ne_nil he with ⟨a, as, hae⟩
      have htake : (buildStaticStandalone env o).trace.take 7 =
          [.setConfigType, .resolveOutputDir, .resolveConfigDir, .logCleaning,
           .readdirOutput, .rmOutput, .mkdirOutput] := by
        rw [ht]
        simp [preTrace, guardConfigT, hae]
      refine ⟨?_, htake, ?_, ?_, ?_⟩
      · rw [hfs]
        simp [guardFS, hae]
      · rw [htake]; decide
      · rw [htake]; decide
      · intro k
        rw [htake]
        cases k <;> decide
    · intro he
      refine ⟨?_, ?_, ?_⟩
      · rw [hfs]
        simp [guardFS, he]
      · rw [ht]
        simp [preTrace, guardConfigT, he, hrm]
      · rw [ht]
        simp [preTrace, guardConfigT, he, hmk]
  cases h4 : env.managerBuildOk with
  | false =>
      refine main [] (by decide) (by decide) ?_ ?_ <;>
        · rw [run_managerFail env o h1 h2 h3 h4]
          try simp [abortWith]
  | true =>
      cases h5 : batchOk env o with
      | false =>
          refine main (queueT env o)
            (by simp only [queueT]; split_ifs <;> decide)
            (by simp only [queueT]; split_ifs <;> decide) ?_ ?_ <;>
            · rw [run_batchFail env o h1 h2 h3 h4 h5]
              try simp [List.append_assoc]
      | true =>
          refine main
            (queueT env o ++ [.joinBatch] ++ telemetryTail env ++
              [.reportOutput])
            (by simp only [queueT, telemetryTail]; split_ifs <;> decide)
            (by simp only [queueT, telemetryTail]; split_ifs <;> decide)
            ?_ ?_ <;>
            · rw [run_ok env o h1 h2 h3 h4 h5]
              try simp [List.append_assoc]

/-- C6 witness: a concrete run over a non-empty existing directory
leaves it present and empty. -/
theorem c6_guard_cleans_nonempty_witness :
    (buildStaticStandalone env0 opts0).fsAfterGuard =
      { present := true, entries := [] } :=
  ((c6_guard_cleans_nonempty env0 opts0 (by decide) (by decide) rfl).1
    (by decide)).1

/-- C7: when the manager (shell) build rejects, the run aborts with
that error: the preview build is never attempted and no side-effect
task of any kind is ever queued (the `effects` array stays empty and
nothing is drained). -/
theorem c7_shell_failure_aborts (env : Env) (o : Options)
    (h1 : o.outputDir ≠ "") (h2 : env.res o.outputDir ≠ "/")
    (h3 : env.fs0.present = true) (h4 : env.managerBuildOk = false) :
    (buildStaticStandalone env o).outcome = .error .managerBuildFailed ∧
    (buildStaticStandalone env o).effects = [] ∧
    (buildStaticStandalone env o).drains = [] ∧
    Event.previewBuild ∉ (buildStaticStandalone env o).trace ∧
    Event.indexerConstructed ∉ (buildStaticStandalone env o).trace ∧
    (∀ k, Event.queueEffect k ∉ (buildStaticStandalone env o).trace) := by
  rw [run_managerFail env o h1 h2 h3 h4]
  refine ⟨rfl, rfl, rfl, ?_, ?_, ?_⟩ <;>
    · simp only [abortWith, preTrace, guardConfigT]
      split_ifs <;> decide

/-- C7 witness: concrete shell-build failure — rejection propagates and
nothing was queued. -/
theorem c7_shell_failure_aborts_witness :
    (buildStaticStandalone envManagerFail opts0).outcome =
      .error .managerBuildFailed ∧
    (buildStaticStandalone envManagerFail opts0).effects = [] :=
  ⟨(c7_shell_failure_aborts envManagerFail opts0 (by decide) (by decide)
      rfl rfl).1,
   (c7_shell_failure_aborts envManagerFail opts0 (by decide) (by decide)
      rfl rfl).2.1⟩

/-- C8: `process.exitCode` is set (to 1, failure) exactly when the
preview build runs and rejects; it is never set by any other path (its
value is always unset-or-1, so it is written at most once and never
reset); and on a preview-build rejection the failure is logged and the
rejection propagates out of the call. -/
theorem c8_preview_failure_exit_status (env : Env) (o : Options) :
    ((buildStaticStandalone env o).exitCode = some 1 ↔
      Event.previewBuild ∈ (buildStaticStandalone env o).trace ∧
        env.previewBuildOk = false) ∧
    ((buildStaticStandalone env o).exitCode = none ∨
      (buildStaticStandalone env o).exitCode = some 1) ∧
    (Event.previewBuild ∈ (buildStaticStandalone env o).trace →
      env.previewBuildOk = false →
      (buildStaticStandalone env o).outcome = .error .batchFailed ∧
      Event.logPreviewError ∈ (buildStaticStandalone env o).trace) := by
  by_cases h1 : o.outputDir = ""
  · rw [run_empty env o h1]
    simp [abortWith]
  by_cases h2 : env.res o.outputDir = "/"
  · rw [run_root env o h1 h2]
    simp [abortWith]
  cases h3 : env.fs0.present with
  | false =>
      rw [run_missing env o h1 h2 h3]
      simp [abortWith]
  | true =>
      cases h4 : env.managerBuildOk with
      | false =>
          rw [run_managerFail env o h1 h2 h3 h4]
          simp [abortWith, preTrace, List.mem_append,
            previewBuild_not_mem_guardConfigT env o]
      | true =>
          cases h5 : batchOk env o with
          | false =>
              rw [run_batchFail env o h1 h2 h3 h4 h5]
              cases hig : o.ignorePreview with
              | false =>
                  cases hpok : env.previewBuildOk with
                  | false =>
                      simp [hig, hpok, preTrace, List.mem_append,
                        previewBuild_mem_queueT, logPreviewError_mem_queueT,
                        previewBuild_not_mem_guardConfigT env o,
                        logPreviewError_not_mem_guardConfigT env o]
                  | true =>
                      simp [hig, hpok, preTrace, List.mem_append,
                        previewBuild_mem_queueT,
                        previewBuild_not_mem_guardConfigT env o]
              | true =>
                  simp [hig, preTrace, List.mem_append,
                    previewBuild_mem_queueT,
                    previewBuild_not_mem_guardConfigT env o]
          | true =>
              rw [run_ok env o h1 h2 h3 h4 h5]
              have h6 : (o.ignorePreview || env.previewBuildOk) = true := by
                have h7 := h5
                simp only [batchOk, Bool.and_eq_true] at h7
                exact h7.1
              rcases Bool.or_eq_true_iff.mp h6 with hig | hpok
              · simp [hig, preTrace, List.mem_append,
                  previewBuild_mem_queueT,
                  previewBuild_not_mem_guardConfigT env o,
                  previewBuild_not_mem_telemetryTail env]
              · simp [hpok, preTrace, List.mem_append,
                  previewBuild_mem_queueT,
                  previewBuild_not_mem_guardConfigT env o,
                  previewBuild_not_mem_telemetryTail env]

/-- C8 witness: concrete preview-build failure — exit code 1, logged,
rejection propagated. -/
theorem c8_preview_failure_exit_status_witness :
    (buildStaticStandalone envPreviewFail opts0).exitCode = some 1 :=
  (c8_preview_failure_exit_status envPreviewFail opts0).1.mpr
    ⟨by decide, rfl⟩

/-- C2 counterexample: in a fully successful concrete run, the second
configuration-loading pass (the only `loadAllPresets` call with both
builders' presets) happens at trace position 11, strictly BEFORE the
manager (shell) build at position 13 — not after it as the claim
requires. -/
theorem c2_counterexample :
    firstIdx (buildStaticStandalone env0 opts0).trace .loadPresets2 =
      some 11 ∧
    firstIdx (buildStaticStandalone env0 opts0).trace .managerBuild =
      some 13 ∧
    idxBefore (buildStaticStandalone env0 opts0).trace
      .managerBuild .loadPresets2 = false ∧
    idxBefore (buildStaticStandalone env0 opts0).trace
      .loadPresets2 .managerBuild = true := by
  decide

/-- C2 (amended): in every run in which the manager (shell) build is
attempted, the attempt comes strictly AFTER the second
configuration-loading pass — and still strictly before any side-effect
queueing and before the preview build: the trace splits at the manager
build with `loadPresets2` in the prefix and no queueing or
preview-build step there. -/
theorem c2_shell_after_pass2_before_effects (env : Env) (o : Options)
    (hm : Event.managerBuild ∈ (buildStaticStandalone env o).trace) :
    ∃ u v,
      (buildStaticStandalone env o).trace = u ++ Event.managerBuild :: v ∧
      Event.loadPresets2 ∈ u ∧
      Event.managerBuild ∉ u ∧
      Event.previewBuild ∉ u ∧
      (∀ k, Event.queueEffect k ∉ u) := by
  by_cases h1 : o.outputDir = ""
  · rw [run_empty env o h1] at hm
    exact absurd hm (by simp [abortWith])
  by_cases h2 : env.res o.outputDir = "/"
  · rw [run_root env o h1 h2] at hm
    exact absurd hm (by simp [abortWith])
  cases h3 : env.fs0.present with
  | false =>
      rw [run_missing env o h1 h2 h3] at hm
      exact absurd hm (by simp [abortWith])
  | true =>
      cases h4 : env.managerBuildOk with
      | false =>
          rw [run_managerFail env o h1 h2 h3 h4]
          exact ⟨guardConfigT env o, [],
            by simp [abortWith, preTrace],
            loadPresets2_mem_guardConfigT env o,
            managerBuild_not_mem_guardConfigT env o,
            previewBuild_not_mem_guardConfigT env o,
            queueEffect_not_mem_guardConfigT env o⟩
      | true =>
          cases h5 : batchOk env o with
          | false =>
              rw [run_batchFail env o h1 h2 h3 h4 h5]
              exact ⟨guardConfigT env o, queueT env o,
                by simp [preTrace, guardConfigT, List.append_assoc],
                loadPresets2_mem_guardConfigT env o,
                managerBuild_not_mem_guardConfigT env o,
                previewBuild_not_mem_guardConfigT env o,
                queueEffect_not_mem_guardConfigT env o⟩
          | true =>
              rw [run_ok env o h1 h2 h3 h4 h5]
              exact ⟨guardConfigT env o,
                queueT env o ++ [.joinBatch] ++ telemetryTail env ++
                  [.reportOutput],
                by simp [preTrace, guardConfigT, List.append_assoc],
                loadPresets2_mem_guardConfigT env o,
                managerBuild_not_mem_guardConfigT env o,
                previewBuild_not_mem_guardConfigT env o,
                queueEffect_not_mem_guardConfigT env o⟩

/-- C2 (amended) witness: the split at the manager build in a concrete
successful run. -/
theorem c2_shell_after_pass2_before_effects_witness :
    ∃ u v,
      (buildStaticStandalone env0 opts0).trace =
        u ++ Event.managerBuild :: v ∧
      Event.loadPresets2 ∈ u ∧
      Event.managerBuild ∉ u ∧
      Event.previewBuild ∉ u ∧
      (∀ k, Event.queueEffect k ∉ u) :=
  c2_shell_after_pass2_before_effects env0 opts0 (by decide)

/-- C9: a telemetry event is submitted only in a run whose joined batch
(preview build + side-effect set) completed successfully — the trace
splits at the join with the submission strictly after it — and only
when telemetry is not disabled; with telemetry disabled, no telemetry
submission occurs and no telemetry task is ever queued, regardless of
build outcome. -/
theorem c9_telemetry_only_after_success (env : Env) (o : Options) :
    (Event.telemetryEvent ∈ (buildStaticStandalone env o).trace →
      (buildStaticStandalone env o).outcome = .ok ∧
      env.core.disableTelemetry = false ∧
      ∃ u v,
        (buildStaticStandalone env o).trace = u ++ Event.joinBatch :: v ∧
        Event.telemetryEvent ∈ v ∧ Event.telemetryEvent ∉ u) ∧
    (env.core.disableTelemetry = true →
      Event.telemetryEvent ∉ (buildStaticStandalone env o).trace ∧
      EffectKind.telemetryTask ∉ (buildStaticStandalone env o).effects) := by
  by_cases h1 : o.outputDir = ""
  · rw [run_empty env o h1]
    simp [abortWith]
  by_cases h2 : env.res o.outputDir = "/"
  · rw [run_root env o h1 h2]
    simp [abortWith]
  cases h3 : env.fs0.present with
  | false =>
      rw [run_missing env o h1 h2 h3]
      simp [abortWith]
  | true =>
      cases h4 : env.managerBuildOk with
      | false =>
          rw [run_managerFail env o h1 h2 h3 h4]
          simp [abortWith, preTrace, List.mem_append,
            telemetryEvent_not_mem_guardConfigT env o]
      | true =>
          cases h5 : batchOk env o with
          | false =>
              rw [run_batchFail env o h1 h2 h3 h4 h5]
              simp [preTrace, List.mem_append,
                telemetryEvent_not_mem_guardConfigT env o,
                telemetryEvent_not_mem_queueT env o,
                telemetryTask_not_mem_queuedEffects env o]
          | true =>
              rw [run_ok env o h1 h2 h3 h4 h5]
              constructor
              · intro ht
                cases hdt : env.core.disableTelemetry with
                | true =>
                    exfalso
                    revert ht
                    simp [preTrace, List.mem_append, telemetryTail, hdt,
                      telemetryEvent_not_mem_guardConfigT env o,
                      telemetryEvent_not_mem_queueT env o]
                | false =>
                    refine ⟨rfl, rfl,
                      preTrace env o ++ queueT env o,
                      telemetryTail env ++ [.reportOutput], ?_, ?_, ?_⟩
                    · simp [List.append_assoc]
                    · simp [telemetryTail, hdt]
                    · simp [preTrace, List.mem_append,
                        telemetryEvent_not_mem_guardConfigT env o,
                        telemetryEvent_not_mem_queueT env o]
              · intro hdt
                constructor
                · simp [preTrace, List.mem_append, telemetryTail, hdt,
                    telemetryEvent_not_mem_guardConfigT env o,
                    telemetryEvent_not_mem_queueT env o]
                · simp [finalEffects, hdt,
                    telemetryTask_not_mem_queuedEffects env o]

/-- C9 witness: with telemetry disabled, a concrete successful run
submits nothing and queues no telemetry task. -/
theorem c9_telemetry_only_after_success_witness :
    Event.telemetryEvent ∉
      (buildStaticStandalone envNoTelemetry opts0).trace ∧
    EffectKind.telemetryTask ∉
      (buildStaticStandalone envNoTelemetry opts0).effects :=
  (c9_telemetry_only_after_success envNoTelemetry opts0).2 rfl

/-- C3 counterexample: in a concrete successful run with telemetry
enabled, the Side-Effect Set is drained exactly ONCE (a single batch of
the three pre-join tasks), and the queued telemetry task belongs to no
drained batch — it is never awaited before the run reports the output
directory and returns. -/
theorem c3_counterexample :
    (buildStaticStandalone env0 opts0).outcome = .ok ∧
    (buildStaticStandalone env0 opts0).drains =
      [[.assetCopy, .indexExport, .metadataExport]] ∧
    EffectKind.telemetryTask ∈ (buildStaticStandalone env0 opts0).effects ∧
    (∀ b ∈ (buildStaticStandalone env0 opts0).drains,
      EffectKind.telemetryTask ∉ b) := by
  decide

/-- C3 (amended): in every successful run the Side-Effect Set is
awaited exactly once — one single batch (the snapshot joined with the
preview build), not two — and when telemetry is enabled the telemetry
task is queued into the set after that drain but belongs to no awaited
batch: the run reports the final output-directory location and returns
without awaiting the telemetry task. -/
theorem c3_telemetry_not_awaited (env : Env) (o : Options)
    (hok : (buildStaticStandalone env o).outcome = .ok) :
    (buildStaticStandalone env o).drains = [queuedEffects env o] ∧
    (env.core.disableTelemetry = false →
      EffectKind.telemetryTask ∈ (buildStaticStandalone env o).effects ∧
      ∀ b ∈ (buildStaticStandalone env o).drains,
        EffectKind.telemetryTask ∉ b) ∧
    Event.reportOutput ∈ (buildStaticStandalone env o).trace := by
  by_cases h1 : o.outputDir = ""
  · rw [run_empty env o h1] at hok
    exact absurd hok (by simp [abortWith])
  by_cases h2 : env.res o.outputDir = "/"
  · rw [run_root env o h1 h2] at hok
    exact absurd hok (by simp [abortWith])
  cases h3 : env.fs0.present with
  | false =>
      rw [run_missing env o h1 h2 h3] at hok
      exact absurd hok (by simp [abortWith])
  | true =>
      cases h4 : env.managerBuildOk with
      | false =>
          rw [run_managerFail env o h1 h2 h3 h4] at hok
          exact absurd hok (by simp [abortWith])
      | true =>
          cases h5 : batchOk env o with
          | false =>
              rw [run_batchFail env o h1 h2 h3 h4 h5] at hok
              exact absurd hok (by simp)
          | true =>
              rw [run_ok env o h1 h2 h3 h4 h5]
              refine ⟨rfl, fun hdt => ⟨?_, ?_⟩, ?_⟩
              · simp [finalEffects, hdt]
              · simp [telemetryTask_not_mem_queuedEffects env o]
              · simp [List.mem_append]

/-- C3 (amended) witness: the single drained batch of a concrete
successful run. -/
theorem c3_telemetry_not_awaited_witness :
    (buildStaticStandalone env0 opts0).drains =
      [queuedEffects env0 opts0] :=
  (c3_telemetry_not_awaited env0 opts0 (by decide)).1

/-- C4 counterexample: with `staticDirs` resolved to an EMPTY array,
the static-copy task IS queued (an empty array is truthy), contrary to
the claim that no task is queued for an empty collection. -/
theorem c4_counterexample :
    envEmptyStatic.staticDirs = some [] ∧
    EffectKind.staticCopy ∈
      (buildStaticStandalone envEmptyStatic opts0).effects ∧
    Event.queueEffect .staticCopy ∈
      (buildStaticStandalone envEmptyStatic opts0).trace := by
  decide

/-- C4 (amended): whenever the queueing phase is reached (marked by the
unconditionally queued asset-copy task), the static-copy task is queued
if and only if the resolved `staticDirs` value is present (truthy,
i.e. `some`) — regardless of whether the collection is empty. -/
theorem c4_staticCopy_iff_staticDirs_present (env : Env) (o : Options)
    (ha : EffectKind.assetCopy ∈ (buildStaticStandalone env o).effects) :
    EffectKind.staticCopy ∈ (buildStaticStandalone env o).effects ↔
      env.staticDirs.isSome = true := by
  by_cases h1 : o.outputDir = ""
  · rw [run_empty env o h1] at ha
    exact absurd ha (by simp [abortWith])
  by_cases h2 : env.res o.outputDir = "/"
  · rw [run_root env o h1 h2] at ha
    exact absurd ha (by simp [abortWith])
  cases h3 : env.fs0.present with
  | false =>
      rw [run_missing env o h1 h2 h3] at ha
      exact absurd ha (by simp [abortWith])
  | true =>
      cases h4 : env.managerBuildOk with
      | false =>
          rw [run_managerFail env o h1 h2 h3 h4] at ha
          exact absurd ha (by simp [abortWith])
      | true =>
          cases h5 : batchOk env o with
          | false =>
              rw [run_batchFail env o h1 h2 h3 h4 h5]
              exact staticCopy_mem_queuedEffects env o
          | true =>
              rw [run_ok env o h1 h2 h3 h4 h5]
              cases hdt : env.core.disableTelemetry with
              | true =>
                  simpa [finalEffects, hdt] using
                    staticCopy_mem_queuedEffects env o
              | false =>
                  simp [finalEffects, hdt, List.mem_append,
                    staticCopy_mem_queuedEffects env o]

/-- C4 (amended) witness: at the concrete empty-array environment the
static-copy task is queued and `staticDirs` is present. -/
theorem c4_staticCopy_iff_staticDirs_present_witness :
    EffectKind.staticCopy ∈
      (buildStaticStandalone envEmptyStatic opts0).effects ↔
    envEmptyStatic.staticDirs.isSome = true :=
  c4_staticCopy_iff_staticDirs_present envEmptyStatic opts0 (by decide)

/-- C1 counterexample: at a concrete request whose output directory
does not exist, the run ABORTS with the `readdir` rejection — the
Output Guard does not complete without error, and configuration
loading is never reached (no removal occurs either). -/
theorem c1_counterexample :
    (buildStaticStandalone envMissing opts0).outcome =
      .error .outputDirMissing ∧
    Event.loadMainConfig ∉ (buildStaticStandalone envMissing opts0).trace ∧
    Event.rmOutput ∉ (buildStaticStandalone envMissing opts0).trace ∧
    Event.mkdirOutput ∉ (buildStaticStandalone envMissing opts0).trace := by
  decide

/-- C1 (amended): for every request whose output directory does not
exist (and which passes the empty-string and root checks), the guard's
unguarded `readdir` listing rejects and `buildStaticStandalone` aborts
with that error: no removal or recreation is performed, the directory
state is untouched, and configuration loading is never reached. -/
theorem c1_missing_outputDir_rejects (env : Env) (o : Options)
    (h1 : o.outputDir ≠ "") (h2 : env.res o.outputDir ≠ "/")
    (h3 : env.fs0.present = false) :
    (buildStaticStandalone env o).outcome = .error .outputDirMissing ∧
    (buildStaticStandalone env o).trace =
      [.setConfigType, .resolveOutputDir, .resolveConfigDir, .logCleaning,
       .readdirOutput] ∧
    Event.rmOutput ∉ (buildStaticStandalone env o).trace ∧
    Event.mkdirOutput ∉ (buildStaticStandalone env o).trace ∧
    Event.loadMainConfig ∉ (buildStaticStandalone env o).trace ∧
    (buildStaticStandalone env o).fsAfterGuard = env.fs0 := by
  rw [run_missing env o h1 h2 h3]
  refine ⟨rfl, rfl, ?_, ?_, ?_, rfl⟩ <;> simp [abortWith]

/-- C1 (amended) witness: the concrete missing-directory rejection. -/
theorem c1_missing_outputDir_rejects_witness :
    (buildStaticStandalone envMissing opts0).outcome =
      .error .outputDirMissing :=
  (c1_missing_outputDir_rejects envMissing opts0 (by decide) (by decide)
    rfl).1

/-- C10 counterexample: on the empty-output-directory input the run
throws before resolution, so `outputDir` is NOT replaced with its
resolved absolute path (it stays empty) even though `configType` was
already set — the claim's "for every input" mutation contract fails. -/
theorem c10_counterexample :
    (buildStaticStandalone env0 optsEmptyOut).options.outputDir ≠
      env0.res optsEmptyOut.outputDir ∧
    (buildStaticStandalone env0 optsEmptyOut).options.outputDir = "" ∧
    (buildStaticStandalone env0 optsEmptyOut).options.configType =
      some "PRODUCTION" := by
  decide

/-- C10 (amended): the orchestrator mutates its options argument in
place, setting `configType` to `PRODUCTION` as the very first step on
every input; on every input whose output directory is non-empty it also
replaces `outputDir` and `configDir` with their resolved paths and
reassigns no other field; on the empty-string input it throws before
resolving, so only `configType` is changed. -/
theorem c10_options_mutation (env : Env) (o : Options) :
    (buildStaticStandalone env o).options.configType = some "PRODUCTION" ∧
    (buildStaticStandalone env o).trace.head? = some .setConfigType ∧
    (o.outputDir ≠ "" →
      (buildStaticStandalone env o).options = resolvedOpts env o) ∧
    (o.outputDir = "" →
      (buildStaticStandalone env o).options =
        { o with configType := some "PRODUCTION" }) := by
  by_cases h1 : o.outputDir = ""
  · rw [run_empty env o h1]
    exact ⟨rfl, rfl, fun h => absurd h1 h, fun _ => rfl⟩
  by_cases h2 : env.res o.outputDir = "/"
  · rw [run_root env o h1 h2]
    exact ⟨rfl, rfl, fun _ => rfl, fun h => absurd h h1⟩
  cases h3 : env.fs0.present with
  | false =>
      rw [run_missing env o h1 h2 h3]
      exact ⟨rfl, rfl, fun _ => rfl, fun h => absurd h h1⟩
  | true =>
      cases h4 : env.managerBuildOk with
      | false =>
          rw [run_managerFail env o h1 h2 h3 h4]
          refine ⟨rfl, ?_, fun _ => rfl, fun h => absurd h h1⟩
          simp [abortWith, preTrace, guardConfigT]
      | true =>
          cases h5 : batchOk env o with
          | false =>
              rw [run_batchFail env o h1 h2 h3 h4 h5]
              refine ⟨rfl, ?_, fun _ => rfl, fun h => absurd h h1⟩
              simp [preTrace, guardConfigT]
          | true =>
              rw [run_ok env o h1 h2 h3 h4 h5]
              refine ⟨rfl, ?_, fun _ => rfl, fun h => absurd h h1⟩
              simp [preTrace, guardConfigT]

/-- C10 (amended) witness: on a concrete non-empty input the final
options record is exactly the original with `configType` set and the
two paths resolved. -/
theorem c10_options_mutation_witness :
    (buildStaticStandalone env0 opts0).options = resolvedOpts env0 opts0 :=
  (c10_options_mutation env0 opts0).2.2.1 (by decide)

end BuildStatic
